import Mathlib

set_option autoImplicit false

/-!
# Verification of the Tabular Data API (`src/api/index.py`)

A shallow embedding of the FastAPI + pandas service in `src/api/index.py`.
JSON cell values are embedded as `Value` (integers, strings, booleans, null;
IEEE floating-point payload cells are outside the embedded domain), pandas
DataFrames as `DataFrame` (column list plus row-major cell lists, with the
pandas dtype of a column recovered by `inferDtype`), and the process-wide
`data_store` dict as an association list `Store`.  Each HTTP handler becomes
a Lean function returning `Except ApiError _`, where `ApiError` carries the
`HTTPException` status code and detail string.  External library behaviour
(pandas reductions, Python `float()` / `str()`, starlette's
`HTTPException.__str__`) is modelled by named helper functions whose doc
comments state the modelling choices.
-/

namespace Tabular

/-- A JSON scalar cell value as stored in a dataset: integer, string,
boolean, or null.  (Float-valued JSON cells are outside the embedded
domain; every concrete payload in the repository is integer- or
string-valued.) -/
inductive Value where
  | int (n : Int)
  | str (s : String)
  | bool (b : Bool)
  | null
deriving DecidableEq, Repr

/-- Is this cell an integer? -/
def Value.isInt : Value → Bool
  | .int _ => true
  | _ => false

/-- Is this cell a string? -/
def Value.isStr : Value → Bool
  | .str _ => true
  | _ => false

/-- Is this cell a boolean? -/
def Value.isBool : Value → Bool
  | .bool _ => true
  | _ => false

/-- Is this cell null? -/
def Value.isNull : Value → Bool
  | .null => true
  | _ => false

/-- Is this cell numeric for Python arithmetic purposes (`int` or `bool`,
booleans being `0`/`1`)? -/
def Value.isNum : Value → Bool
  | .int _ => true
  | .bool _ => true
  | _ => false

/-- Python `str()` of a cell value: integers print in decimal, strings are
themselves, booleans are `True`/`False`, and `None` prints as `"None"`. -/
def pyStr : Value → String
  | .int n => toString n
  | .str s => s
  | .bool b => if b then "True" else "False"
  | .null => "None"

/-- A row record of an upload payload: an association list from column name
to cell value, in JSON key order (keys are unique in a JSON object). -/
abbrev Row := List (String × Value)

/-- The pandas dtype a stored column can take in the embedded domain. -/
inductive Dtype where
  | int64
  | float64
  | boolDt
  | object
deriving DecidableEq, Repr

/-- `str(dtype)` as reported in the `dtypes` field of a get response. -/
def dtypeName : Dtype → String
  | .int64 => "int64"
  | .float64 => "float64"
  | .boolDt => "bool"
  | .object => "object"

/-- Pandas dtype inference for a column built from JSON scalars: an all
integer column is `int64`, an all boolean column is `bool`, integers mixed
with nulls promote to `float64` (the nulls becoming NaN), and everything
else (strings, mixed types, all-null columns) is `object`. -/
def inferDtype (cells : List Value) : Dtype :=
  if !cells.isEmpty && cells.all Value.isInt then .int64
  else if !cells.isEmpty && cells.all Value.isBool then .boolDt
  else if cells.any Value.isInt && cells.all (fun c => c.isInt || c.isNull) then .float64
  else .object

/-- `astype(str)` of one cell of a column of the given dtype: in a
`float64` column the integer values were promoted to floats (so `1`
renders as `"1.0"`) and nulls are NaN (rendering as `"nan"`); in other
columns cells render by Python `str()`, nulls in `object` columns as
`"None"`. -/
def cellStr (dt : Dtype) (v : Value) : String :=
  match dt, v with
  | .float64, .int n => toString n ++ ".0"
  | .float64, .null => "nan"
  | _, v => pyStr v

/-- A pandas DataFrame over the embedded domain: ordered column names and
row-major cells (every row has one cell per column). -/
structure DataFrame where
  cols : List String
  rows : List (List Value)
deriving DecidableEq, Repr

/-- Union of row-record keys in first-appearance order, as pandas uses for
the columns of a DataFrame built from a list of dicts. -/
def unionKeys (rows : List Row) : List String :=
  rows.foldl (fun acc r => acc ++ ((r.map Prod.fst).filter (fun k => !acc.contains k))) []

/-- Cell of a row record at a column, null when the key is absent (pandas
aligns missing keys to NaN/None). -/
def lookupCell (c : String) (r : Row) : Value :=
  match r.find? (fun p => p.1 == c) with
  | some p => p.2
  | none => Value.null

/-- `pd.DataFrame(rows)` on a list of row records with scalar values:
columns are the union of keys in first-appearance order, each row aligned
to them with missing keys as null. -/
def mkDataFrame (rows : List Row) : DataFrame :=
  let cols := unionKeys rows
  ⟨cols, rows.map (fun r => cols.map (fun c => lookupCell c r))⟩

/-- The cells of a named column of a DataFrame, in row order. -/
def colCells (df : DataFrame) (c : String) : List Value :=
  df.rows.map (fun r => r.getD (df.cols.indexOf c) Value.null)

/-- `to_dict(orient="records")`: each row as an association list from
column name to cell. -/
def toRecs (df : DataFrame) (rows : List (List Value)) : List Row :=
  rows.map (fun r => df.cols.zip r)

/-- The in-memory `data_store`: an association list from dataset name to
DataFrame, first binding wins on lookup (keys are kept unique by
`storeSet`). -/
abbrev Store := List (String × DataFrame)

/-- `data_store[name]` lookup (`None` when absent). -/
def lookupStore (s : Store) (n : String) : Option DataFrame :=
  (s.find? (fun p => p.1 == n)).map Prod.snd

/-- `data_store[name] = df`: Python dict assignment replaces the value in
place when the key exists and appends the binding otherwise. -/
def storeSet (s : Store) (n : String) (df : DataFrame) : Store :=
  if s.any (fun p => p.1 == n) then
    s.map (fun p => if p.1 == n then (n, df) else p)
  else
    s ++ [(n, df)]

/-- `del data_store[name]`. -/
def storeDel (s : Store) (n : String) : Store :=
  s.filter (fun p => !(p.1 == n))

/-- An HTTP error as raised via `HTTPException`: status code and detail
string. -/
structure ApiError where
  status : Nat
  detail : String
deriving DecidableEq, Repr

/-- `str()` of a starlette `HTTPException`, as produced when the handler's
`except Exception` clause catches an `HTTPException` raised inside its
`try` block and re-wraps it: starlette renders it as
`f"\x7bstatus_code\x7d: \x7bdetail\x7d"`. -/
def httpExcStr (status : Nat) (detail : String) : String :=
  toString status ++ ": " ++ detail

/-- Response of a successful `POST /api/datasets`. -/
structure CreateResponse where
  message : String
  shape : Nat × Nat
  columns : List String
deriving DecidableEq, Repr

/-- Response of a successful `GET /api/datasets/\x7bname\x7d`. -/
structure GetResponse where
  data : List Row
  columns : List String
  total_rows : Nat
  dtypes : List (String × String)
deriving DecidableEq, Repr

/-- Response of a successful `POST /api/filter`. -/
structure FilterResponse where
  data : List Row
  total_rows : Nat
deriving DecidableEq, Repr

/-- Response of a successful `POST /api/aggregate`. -/
structure AggResponse where
  column : String
  operation : String
  result : Option Rat
deriving DecidableEq, Repr

/-- `df.head(n)` on the row list: the first `n` rows for `n ≥ 0`, and all
but the last `|n|` rows for negative `n`. -/
def pdHead (n : Int) (rows : List (List Value)) : List (List Value) :=
  if 0 ≤ n then rows.take n.toNat else rows.take (rows.length - n.natAbs)

/-- Handler of `POST /api/datasets` (`create_dataset`): the
`pd.DataFrame(data_upload.data)` construction is an external pandas call,
so the handler is embedded as a function of that call's outcome `b`; on
success the frame is bound to the name (only then), on failure the raised
exception's message is returned as HTTP 400 and the store is untouched.
On scalar row records the construction succeeds with `mkDataFrame` (see
`apiStep`). -/
def createDataset (store : Store) (name : String) (b : Except String DataFrame) :
    Store × Except ApiError CreateResponse :=
  match b with
  | .ok df =>
      (storeSet store name df,
       .ok ⟨"Dataset '" ++ name ++ "' created successfully",
            (df.rows.length, df.cols.length), df.cols⟩)
  | .error e => (store, .error ⟨400, e⟩)

/-- Handler of `GET /api/datasets/\x7bdataset_name\x7d` (`get_dataset`):
404 when the name is absent; otherwise the rows capped by
`df.head(limit)` when `limit` is truthy (absent defaults to the literal
100; `0` is falsy so no cap applies), with the column list, the pre-limit
row count, and the dtype string of each column. -/
def getDataset (store : Store) (name : String) (limit : Option Int) :
    Except ApiError GetResponse :=
  match lookupStore store name with
  | none => .error ⟨404, "Dataset not found"⟩
  | some df =>
      let lim := limit.getD 100
      let limited := if lim ≠ 0 then pdHead lim df.rows else df.rows
      .ok ⟨toRecs df limited, df.cols, df.rows.length,
           df.cols.map (fun c => (c, dtypeName (inferDtype (colCells df c))))⟩

/-- Handler of `DELETE /api/datasets/\x7bdataset_name\x7d`
(`delete_dataset`). -/
def deleteDataset (store : Store) (name : String) :
    Store × Except ApiError String :=
  match lookupStore store name with
  | none => (store, .error ⟨404, "Dataset not found"⟩)
  | some _ =>
      (storeDel store name,
       .ok ("Dataset '" ++ name ++ "' deleted successfully"))

/-- Body of `POST /api/filter` (`filter_data`). -/
structure FilterRequest where
  dataset_name : String
  column : String
  operation : String
  value : Value
deriving DecidableEq, Repr

/-- Body of `POST /api/aggregate` (`aggregate_data`). -/
structure AggregateRequest where
  dataset_name : String
  column : String
  operation : String
deriving DecidableEq, Repr

/-- Does the pattern occur as a contiguous run at the head of the
character list? -/
def chStarts : List Char → List Char → Bool
  | [], _ => true
  | _ :: _, [] => false
  | a :: p, b :: s => a == b && chStarts p s

/-- Does the pattern occur as a contiguous run anywhere in the character
list? -/
def chHasSub (p : List Char) : List Char → Bool
  | [] => p.isEmpty
  | b :: s => chStarts p (b :: s) || chHasSub p s

/-- `pat in s` substring test on strings; this also models Python
`re.search(pat, s)` (as used by `Series.str.contains` with its default
`regex=True`) for patterns containing no regex metacharacter — a full
regex engine is outside the embedding, and every theorem touching
`contains` constrains or instantiates the pattern accordingly. -/
def strHasSub (pat s : String) : Bool :=
  chHasSub pat.data s.data

/-- Does the string contain no Python regex metacharacter (so that
`re.search` degenerates to a substring test)? -/
def regexLiteral (s : String) : Bool :=
  s.data.all (fun c => !([".","^","$","*","+","?","\x7b","\x7d","[","]","(",")","|","\\"].contains (String.mk [c])))

/-- Python `<` on strings: lexicographic comparison of the code-point
sequences. -/
def chLt : List Char → List Char → Bool
  | [], [] => false
  | [], _ :: _ => true
  | _ :: _, [] => false
  | a :: as, b :: bs =>
      if a.toNat < b.toNat then true
      else if b.toNat < a.toNat then false
      else chLt as bs

/-- Python `a < b` on strings, by code points. -/
def strLt (a b : String) : Bool := chLt a.data b.data

/-- Elementwise Python `==` between a cell and the comparison value, as
pandas applies it for `df[col] == value`: numeric values compare
numerically (booleans as 0/1), strings compare as strings, type-mismatched
pairs and missing values compare unequal (pandas treats NaN/None as not
equal to anything). -/
def pyEqVal (cell v : Value) : Bool :=
  match cell, v with
  | .int a, .int b => a == b
  | .int a, .bool b => a == (if b then 1 else 0)
  | .bool a, .int b => (if a then (1 : Int) else 0) == b
  | .bool a, .bool b => a == b
  | .str a, .str b => a == b
  | _, _ => false

/-- Elementwise Python `a < b` between scalars, as pandas applies it for
an ordered comparison on an `object` column: numbers (booleans as 0/1)
compare numerically, strings lexicographically by code point, and any
other pairing (string against number, missing value against anything)
raises `TypeError`; the message is modelled as the constant shape of
CPython's, without the per-type detail. -/
def pyLtVal (a b : Value) : Except String Bool :=
  match a, b with
  | .int x, .int y => .ok (decide (x < y))
  | .int x, .bool y => .ok (decide (x < (if y then 1 else 0)))
  | .bool x, .int y => .ok (decide ((if x then (1 : Int) else 0) < y))
  | .bool x, .bool y => .ok (decide ((if x then (1 : Int) else 0) < (if y then 1 else 0)))
  | .str x, .str y => .ok (strLt x y)
  | _, _ => .error "'<' not supported between instances"

/-- One cell of an ordered (`gt`/`lt`) comparison of a column against the
request value: in a `float64` column the null cells are NaN and any
comparison on NaN is `False`; elsewhere elementwise Python comparison
applies (`isLt = true` for `cell < value`, else `value < cell`). -/
def cmpCell (dt : Dtype) (isLt : Bool) (cell v : Value) : Except String Bool :=
  match dt, cell with
  | .float64, .null => .ok false
  | _, _ => if isLt then pyLtVal cell v else pyLtVal v cell

/-- Keep the rows whose designated cell satisfies the fallible predicate,
propagating the first raised `TypeError` (as the vectorized pandas
comparison does). -/
def filterRowsE (p : Value → Except String Bool) (idx : Nat) :
    List (List Value) → Except String (List (List Value))
  | [] => .ok []
  | r :: rest =>
      match p (r.getD idx Value.null) with
      | .error e => .error e
      | .ok b =>
          match filterRowsE p idx rest with
          | .error e => .error e
          | .ok rest' => .ok (if b then r :: rest' else rest')

/-- The `try` block of `filter_data`: the kept rows per operation tag, or
the message of the exception the block raises.  `eq` compares elementwise
(never raising), `gt`/`lt` compare with Python ordering (raising
`TypeError` on unorderable pairs), `contains` matches
`astype(str).str.contains(str(value), na=False)` — after `astype(str)`
null cells have become the strings `"None"`/`"nan"`, so `na=False` has
nothing to act on — and any other tag raises
`HTTPException(400, "Invalid operation")`, which the handler's own
`except Exception` clause catches and stringifies. -/
def filterTry (df : DataFrame) (col op : String) (v : Value) :
    Except String (List (List Value)) :=
  let idx := df.cols.indexOf col
  let dt := inferDtype (colCells df col)
  if op == "eq" then
    .ok (df.rows.filter (fun r => pyEqVal (r.getD idx Value.null) v))
  else if op == "gt" then
    filterRowsE (fun c => cmpCell dt false c v) idx df.rows
  else if op == "lt" then
    filterRowsE (fun c => cmpCell dt true c v) idx df.rows
  else if op == "contains" then
    .ok (df.rows.filter (fun r => strHasSub (pyStr v) (cellStr dt (r.getD idx Value.null))))
  else
    .error (httpExcStr 400 "Invalid operation")

/-- Handler of `POST /api/filter` (`filter_data`): 404 when the dataset is
absent, 400 naming the column when it is absent, otherwise the `try` block
runs and any exception it raises is returned as HTTP 400 with the
exception's message. -/
def filterData (store : Store) (req : FilterRequest) :
    Except ApiError FilterResponse :=
  match lookupStore store req.dataset_name with
  | none => .error ⟨404, "Dataset not found"⟩
  | some df =>
      if !df.cols.contains req.column then
        .error ⟨400, "Column '" ++ req.column ++ "' not found"⟩
      else
        match filterTry df req.column req.operation req.value with
        | .error e => .error ⟨400, e⟩
        | .ok kept => .ok ⟨toRecs df kept, kept.length⟩

/-- The numeric content of a cell list: integers as themselves, booleans
as 0/1, everything else dropped. -/
def numsOf (cells : List Value) : List Int :=
  cells.filterMap (fun v =>
    match v with
    | .int n => some n
    | .bool b => some (if b then 1 else 0)
    | _ => none)

/-- The string content of a cell list, non-strings dropped. -/
def strsOf (cells : List Value) : List String :=
  cells.filterMap (fun v =>
    match v with
    | .str s => some s
    | _ => none)

/-- Sum of a list of integers. -/
def sumInts (l : List Int) : Int := l.foldl (· + ·) 0

/-- Minimum of a nonempty integer list (0 on the empty list, which every
caller rules out first). -/
def minInts (l : List Int) : Int :=
  match l with
  | [] => 0
  | h :: t => t.foldl (fun a b => if b < a then b else a) h

/-- Maximum of a nonempty integer list (0 on the empty list, which every
caller rules out first). -/
def maxInts (l : List Int) : Int :=
  match l with
  | [] => 0
  | h :: t => t.foldl (fun a b => if a < b then b else a) h

/-- Lexicographic minimum of a nonempty string list (`""` on the empty
list, which every caller rules out first); Python and pandas compare
strings by code point, as Lean's `<` on `String` does. -/
def minStrs (l : List String) : String :=
  match l with
  | [] => ""
  | h :: t => t.foldl (fun a b => if strLt b a then b else a) h

/-- Lexicographic maximum of a nonempty string list (`""` on the empty
list, which every caller rules out first). -/
def maxStrs (l : List String) : String :=
  match l with
  | [] => ""
  | h :: t => t.foldl (fun a b => if strLt a b then b else a) h

/-- Arithmetic mean of an integer list as an exact rational (0 on the
empty list, which every caller rules out first). -/
def ratMean (l : List Int) : Rat :=
  (sumInts l : Rat) / (l.length : Rat)

/-- Median of an integer list as an exact rational: middle element of the
sorted list, or the mean of the two middle elements at even length (0 on
the empty list, which every caller rules out first). -/
def ratMedian (l : List Int) : Rat :=
  let s := l.mergeSort (fun a b => decide (a ≤ b))
  let n := s.length
  if n % 2 == 1 then ((s.getD (n / 2) 0 : Int) : Rat)
  else (((s.getD (n / 2 - 1) 0 + s.getD (n / 2) 0 : Int) : Rat)) / 2

/-- The scalar a pandas column reduction can produce in the embedded
domain: an integer, an exact rational standing for a float, a string, or
a missing value (NaN/None). -/
inductive AggValue where
  | i (n : Int)
  | q (r : Rat)
  | s (st : String)
  | nullv
deriving DecidableEq, Repr

/-- The pandas `Series` reduction for one operation tag over a column of
the given dtype, skipping missing values (`skipna`), or `none` for a tag
outside `sum`/`mean`/`median`/`count`/`min`/`max`.  Modelled pandas
behaviour: `count` counts non-null cells; `sum` adds numbers (a bare `0`
when nothing remains), concatenates an all-string column, and raises
`TypeError` on mixed content; `mean`/`median` reduce numbers, give NaN
when nothing remains after skipping in a numeric column, and raise
`TypeError` on non-numeric content; `min`/`max` give NaN when nothing
remains after skipping, reduce numbers numerically and all-string columns
lexicographically, and raise `TypeError` on mixed content.  `TypeError`
messages are modelled as the constant shape of CPython's, without the
per-type detail. -/
def reduceAgg (op : String) (dt : Dtype) (cells : List Value) :
    Option (Except String AggValue) :=
  let nn := cells.filter (fun c => !c.isNull)
  if op == "sum" then some (
    match dt with
    | .int64 => .ok (.i (sumInts (numsOf cells)))
    | .float64 => .ok (.q ((sumInts (numsOf nn) : Int) : Rat))
    | .boolDt => .ok (.i (sumInts (numsOf cells)))
    | .object =>
        if nn.isEmpty then .ok (.i 0)
        else if nn.all Value.isStr then .ok (.s (String.join (strsOf nn)))
        else if nn.all Value.isNum then .ok (.i (sumInts (numsOf nn)))
        else .error "unsupported operand type(s) for +")
  else if op == "mean" then some (
    match dt with
    | .object =>
        if !nn.isEmpty && nn.all Value.isNum then .ok (.q (ratMean (numsOf nn)))
        else .error "could not convert to numeric"
    | _ => if nn.isEmpty then .ok .nullv else .ok (.q (ratMean (numsOf nn))))
  else if op == "median" then some (
    match dt with
    | .object =>
        if !nn.isEmpty && nn.all Value.isNum then .ok (.q (ratMedian (numsOf nn)))
        else .error "could not convert to numeric"
    | _ => if nn.isEmpty then .ok .nullv else .ok (.q (ratMedian (numsOf nn))))
  else if op == "count" then some (.ok (.i nn.length))
  else if op == "min" then some (
    if nn.isEmpty then .ok .nullv
    else if nn.all Value.isNum then .ok (.i (minInts (numsOf nn)))
    else if nn.all Value.isStr then .ok (.s (minStrs (strsOf nn)))
    else .error "'<' not supported between instances")
  else if op == "max" then some (
    if nn.isEmpty then .ok .nullv
    else if nn.all Value.isNum then .ok (.i (maxInts (numsOf nn)))
    else if nn.all Value.isStr then .ok (.s (maxStrs (strsOf nn)))
    else .error "'<' not supported between instances")
  else none

/-- Is the character one of the ASCII-range whitespace characters
Python's `float()` strips around a numeric string (space, tab, newline,
carriage return, vertical tab 0x0B, form feed 0x0C, and the separator
controls 0x1C–0x1F)?  Non-ASCII whitespace is outside the embedded
guard `floatLitPlain`. -/
def isPySpace (c : Char) : Bool :=
  c == ' ' || c == '\t' || c == '\n' || c == '\r' ||
  c.toNat == 11 || c.toNat == 12 ||
  (decide (28 ≤ c.toNat) && decide (c.toNat ≤ 31))

/-- Is the character an ASCII decimal digit? -/
def isDigitCh (c : Char) : Bool :=
  '0' ≤ c && c ≤ '9'

/-- Numeric value of an ASCII digit run. -/
def digitsVal (l : List Char) : Nat :=
  l.foldl (fun a c => a * 10 + (c.toNat - 48)) 0

/-- Parse an optional exponent suffix `e`/`E` with optional sign and a
nonempty digit run ending the string; `some k` is the signed exponent,
with `some 0` when the suffix is absent. -/
def parseExp (l : List Char) : Option Int :=
  match l with
  | [] => some 0
  | e :: rest =>
      if e == 'e' || e == 'E' then
        let (sgn, ds) :=
          match rest with
          | '+' :: r => ((1 : Int), r)
          | '-' :: r => ((-1 : Int), r)
          | r => ((1 : Int), r)
        if !ds.isEmpty && ds.all isDigitCh then some (sgn * (digitsVal ds : Int))
        else none
      else none

/-- Python `float()` on a string: optional surrounding whitespace,
optional sign, a digit run with at most one decimal point (at least one
digit overall), and an optional exponent; the value is returned as an
exact rational (the ideal value: IEEE rounding and overflow/underflow to
`±inf`/`0.0` are idealized away, like every float in this development).
`none` means `float()` raises `ValueError`.  This is exact on strings
satisfying `floatLitPlain`; the CPython extensions that guard excludes —
underscore separators between digits, the `inf`/`Infinity`/`nan`
spellings, and non-ASCII decimal digits and whitespace — are outside
the model, and every theorem coercing a string constrains or
instantiates it accordingly. -/
def pyFloatOfString (s : String) : Option Rat :=
  let l := ((s.data.dropWhile isPySpace).reverse.dropWhile isPySpace).reverse
  let (neg, l1) :=
    match l with
    | '+' :: r => (false, r)
    | '-' :: r => (true, r)
    | r => (false, r)
  let ip := l1.takeWhile isDigitCh
  let r1 := l1.dropWhile isDigitCh
  let (fp, r2) :=
    match r1 with
    | '.' :: r => (r.takeWhile isDigitCh, r.dropWhile isDigitCh)
    | r => (([] : List Char), r)
  if ip.isEmpty && fp.isEmpty then none
  else
    match parseExp r2 with
    | none => none
    | some ex =>
        let mant : Rat := (digitsVal (ip ++ fp) : Rat) / ((10 : Rat) ^ fp.length)
        let scaled : Rat :=
          if 0 ≤ ex then mant * (10 : Rat) ^ ex.toNat else mant / ((10 : Rat) ^ ex.natAbs)
        some (if neg then -scaled else scaled)

/-- The code point of a character with ASCII upper-case letters folded to
lower case. -/
def lowerCode (c : Char) : Nat :=
  if decide (65 ≤ c.toNat) && decide (c.toNat ≤ 90) then c.toNat + 32 else c.toNat

/-- The code points of a string. -/
def codesOf (s : String) : List Nat :=
  s.data.map Char.toNat

/-- The lower-cased code points of a string after stripping surrounding
whitespace and one optional leading sign — the part Python's `float()`
matches against the special spellings `inf`/`infinity`/`nan`. -/
def floatCore (s : String) : List Nat :=
  let l := ((s.data.dropWhile isPySpace).reverse.dropWhile isPySpace).reverse
  let l1 :=
    match l with
    | '+' :: r => r
    | '-' :: r => r
    | r => r
  l1.map lowerCode

/-- Is this string in the domain where `pyFloatOfString` models CPython's
`float()` exactly: every character ASCII with no underscore separator,
and the sign-stripped core not a case-insensitive `inf`/`infinity`/`nan`
spelling?  On such strings `float()` reduces to the plain decimal-literal
grammar that `pyFloatOfString` implements. -/
def floatLitPlain (s : String) : Bool :=
  s.data.all (fun c => decide (c.toNat < 128) && !(c == '_')) &&
  !(floatCore s == codesOf "inf") &&
  !(floatCore s == codesOf "infinity") &&
  !(floatCore s == codesOf "nan")

/-- The response line `float(result) if pd.notna(result) else None`: a
missing reduction result is reported as an explicit null; integers and
floats coerce to the float they denote; a string result goes through
Python `float()`, whose `ValueError` (message as CPython prints it)
propagates to the handler's `except` clause. -/
def coerceFloat (v : AggValue) : Except String (Option Rat) :=
  match v with
  | .nullv => .ok none
  | .i n => .ok (some (n : Rat))
  | .q r => .ok (some r)
  | .s st =>
      match pyFloatOfString st with
      | some r => .ok (some r)
      | none => .error ("could not convert string to float: '" ++ st ++ "'")

/-- Handler of `POST /api/aggregate` (`aggregate_data`): 404 when the
dataset is absent, 400 naming the column when it is absent; otherwise the
`try` block computes the tagged reduction — an unknown tag raises
`HTTPException(400, "Invalid operation")`, caught and stringified by the
handler's own `except Exception` clause — and the result is reported
through `coerceFloat`, any raised exception becoming HTTP 400 with the
exception's message. -/
def aggregateData (store : Store) (req : AggregateRequest) :
    Except ApiError AggResponse :=
  match lookupStore store req.dataset_name with
  | none => .error ⟨404, "Dataset not found"⟩
  | some df =>
      if !df.cols.contains req.column then
        .error ⟨400, "Column '" ++ req.column ++ "' not found"⟩
      else
        match reduceAgg req.operation (inferDtype (colCells df req.column))
            (colCells df req.column) with
        | none => .error ⟨400, httpExcStr 400 "Invalid operation"⟩
        | some (.error e) => .error ⟨400, e⟩
        | some (.ok v) =>
            match coerceFloat v with
            | .ok r => .ok ⟨req.column, req.operation, r⟩
            | .error e => .error ⟨400, e⟩

deriving instance DecidableEq for Except

/-- One API request, dispatched by `apiStep`. -/
inductive Request where
  | create (name : String) (rows : List Row)
  | get (name : String) (limit : Option Int)
  | del (name : String)
  | filter (req : FilterRequest)
  | aggregate (req : AggregateRequest)
deriving DecidableEq, Repr

/-- One API response, tagged by endpoint. -/
inductive Response where
  | createR (r : Except ApiError CreateResponse)
  | getR (r : Except ApiError GetResponse)
  | delR (r : Except ApiError String)
  | filterR (r : Except ApiError FilterResponse)
  | aggR (r : Except ApiError AggResponse)
deriving DecidableEq, Repr

/-- The service as a transition function on the store: each request runs
its handler, returning the store it leaves behind and the response.  Only
`create` and `delete` write to the store; on scalar row records the
pandas construction in `create` succeeds, producing `mkDataFrame`. -/
def apiStep (store : Store) : Request → Store × Response
  | .create name rows =>
      let p := createDataset store name (.ok (mkDataFrame rows))
      (p.1, .createR p.2)
  | .get name limit => (store, .getR (getDataset store name limit))
  | .del name =>
      let p := deleteDataset store name
      (p.1, .delR p.2)
  | .filter req => (store, .filterR (filterData store req))
  | .aggregate req => (store, .aggR (aggregateData store req))

/-- The five seeded rows of the `sample` dataset. -/
def sampleRows : List Row :=
  [[("id", .int 1), ("name", .str "Alice"), ("age", .int 30),
    ("city", .str "New York"), ("salary", .int 75000)],
   [("id", .int 2), ("name", .str "Bob"), ("age", .int 25),
    ("city", .str "San Francisco"), ("salary", .int 85000)],
   [("id", .int 3), ("name", .str "Charlie"), ("age", .int 35),
    ("city", .str "Los Angeles"), ("salary", .int 65000)],
   [("id", .int 4), ("name", .str "Diana"), ("age", .int 28),
    ("city", .str "New York"), ("salary", .int 90000)],
   [("id", .int 5), ("name", .str "Eve"), ("age", .int 32),
    ("city", .str "Chicago"), ("salary", .int 72000)]]

/-- The sample DataFrame seeded at startup. -/
def sampleDF : DataFrame := mkDataFrame sampleRows

/-- The store as the process starts: `data_store["sample"]` bound to the
sample DataFrame. -/
def startupStore : Store := storeSet [] "sample" sampleDF

/-! ## Helper lemmas -/

theorem lookupStore_storeSet (s : Store) (n : String) (df : DataFrame) :
    lookupStore (storeSet s n df) n = some df := by
  induction s with
  | nil => simp [lookupStore, storeSet]
  | cons hd tl ih =>
    obtain ⟨k, v⟩ := hd
    by_cases hk : k = n
    · subst hk
      simp [storeSet, lookupStore, List.any_cons, List.find?]
    · have hkb : (k == n) = false := by simpa using hk
      by_cases ha : tl.any (fun p => p.1 == n) = true
      · have hset : storeSet tl n df = tl.map (fun p => if p.1 == n then (n, df) else p) := by
          simp [storeSet, ha]
        have hcons : storeSet ((k, v) :: tl) n df
            = (k, v) :: tl.map (fun p => if p.1 == n then (n, df) else p) := by
          simp [storeSet, List.any_cons, ha, hkb, hk]
        rw [hcons, ← hset]
        simpa [lookupStore, List.find?, hkb] using ih
      · have hset : storeSet tl n df = tl ++ [(n, df)] := by
          simp [storeSet, ha]
        have hcons : storeSet ((k, v) :: tl) n df = (k, v) :: (tl ++ [(n, df)]) := by
          simp [storeSet, List.any_cons, ha, hkb, hk]
        rw [hcons, ← hset]
        simpa [lookupStore, List.find?, hkb] using ih

theorem zip_map_self {α β : Type} (l : List α) (f : α → β) :
    l.zip (l.map f) = l.map (fun a => (a, f a)) := by
  induction l with
  | nil => rfl
  | cons h t ih => simp [ih]

/-- Reconstructing a row record from its own keys by `lookupCell` is the
identity when the keys are duplicate-free. -/
theorem lookupCell_reconstruct (r : Row) (ks : List String)
    (hks : r.map Prod.fst = ks) (hnd : ks.Nodup) :
    ks.map (fun c => (c, lookupCell c r)) = r := by
  induction r generalizing ks with
  | nil => subst hks; rfl
  | cons p rest ih =>
    obtain ⟨k, v⟩ := p
    subst hks
    simp only [List.map_cons, List.nodup_cons] at hnd ⊢
    have hhead : lookupCell k ((k, v) :: rest) = v := by simp [lookupCell, List.find?]
    rw [hhead]
    congr 1
    have hne : ∀ c ∈ rest.map Prod.fst, lookupCell c ((k, v) :: rest) = lookupCell c rest := by
      intro c hc
      have : ¬ (k = c) := fun he => hnd.1 (he ▸ hc)
      simp only [lookupCell, List.find?]
      rw [show ((k, v).1 == c) = false by simpa using this]
    calc (rest.map Prod.fst).map (fun c => (c, lookupCell c ((k, v) :: rest)))
        = (rest.map Prod.fst).map (fun c => (c, lookupCell c rest)) := by
          apply List.map_congr_left
          intro c hc
          rw [hne c hc]
      _ = rest := ih _ rfl hnd.2

/-- `unionKeys` of a nonempty family of rows sharing one key list is that
key list. -/
theorem unionKeys_const (rows : List Row) (ks : List String)
    (hks : ∀ r ∈ rows, r.map Prod.fst = ks) (hne : rows ≠ []) :
    unionKeys rows = ks := by
  have step : ∀ (l : List Row), (∀ r ∈ l, r.map Prod.fst = ks) →
      l.foldl (fun acc r => acc ++ ((r.map Prod.fst).filter (fun k => !acc.contains k))) ks = ks := by
    intro l
    induction l with
    | nil => intro _; rfl
    | cons r t ih =>
      intro hall
      have hr : r.map Prod.fst = ks := hall r (by simp)
      have hfilter : ks.filter (fun k => !ks.contains k) = [] := by
        apply List.filter_eq_nil_iff.mpr
        intro k hk
        simp [hk]
      simp only [List.foldl_cons, hr, hfilter, List.append_nil]
      exact ih (fun x hx => hall x (by simp [hx]))
  match rows, hne with
  | r :: t, _ =>
    have hr : r.map Prod.fst = ks := hks r (by simp)
    simp only [unionKeys, List.foldl_cons]
    have h0 : ([] : List String) ++ ((r.map Prod.fst).filter (fun k => !List.contains [] k)) = ks := by
      simp [hr]
    rw [h0]
    exact step t (fun x hx => hks x (by simp [hx]))

/-- On rows sharing one duplicate-free key list, `mkDataFrame` followed by
`to_dict(orient="records")` over all rows is the identity. -/
theorem mkDataFrame_toRecs (rows : List Row) (ks : List String)
    (hks : ∀ r ∈ rows, r.map Prod.fst = ks) (hnd : ks.Nodup) :
    toRecs (mkDataFrame rows) (mkDataFrame rows).rows = rows := by
  rcases rows with _ | ⟨r0, rest⟩
  · rfl
  · have hu : unionKeys (r0 :: rest) = ks := unionKeys_const _ _ hks (by simp)
    simp only [toRecs, mkDataFrame, hu, List.map_map]
    conv_rhs => rw [show r0 :: rest = (r0 :: rest).map id by simp]
    apply List.map_congr_left
    intro r hr
    simp only [Function.comp_apply, id_eq]
    rw [zip_map_self]
    exact lookupCell_reconstruct r ks (hks r hr) hnd

/-! ## Claim theorems -/

/-- C1: on an existing dataset, `get` with the limit absent defaults to
the literal 100 and returns at most 100 row records; with `limit = 0` the
falsy conditional applies no cap and every row is returned; in both cases
`total_rows` is the dataset's full pre-limit row count. -/
theorem get_limit_default_and_zero (store : Store) (name : String)
    (df : DataFrame) (h : lookupStore store name = some df) :
    (∃ resp, getDataset store name none = .ok resp ∧
        resp.data.length ≤ 100 ∧ resp.total_rows = df.rows.length) ∧
    (∃ resp, getDataset store name (some 0) = .ok resp ∧
        resp.data = toRecs df df.rows ∧ resp.total_rows = df.rows.length) := by
  constructor
  · have h1 : getDataset store name none =
        .ok ⟨toRecs df (pdHead 100 df.rows), df.cols, df.rows.length,
             df.cols.map (fun c => (c, dtypeName (inferDtype (colCells df c))))⟩ := by
      simp [getDataset, h]
    refine ⟨_, h1, ?_, rfl⟩
    simp [toRecs, pdHead]
  · have h2 : getDataset store name (some 0) =
        .ok ⟨toRecs df df.rows, df.cols, df.rows.length,
             df.cols.map (fun c => (c, dtypeName (inferDtype (colCells df c))))⟩ := by
      simp [getDataset, h]
    exact ⟨_, h2, rfl, rfl⟩

/-- Witness for C1 at the seeded store and `sample` dataset. -/
theorem get_limit_default_and_zero_witness :
    lookupStore startupStore "sample" = some sampleDF ∧
    ((∃ resp, getDataset startupStore "sample" none = .ok resp ∧
        resp.data.length ≤ 100 ∧ resp.total_rows = sampleDF.rows.length) ∧
     (∃ resp, getDataset startupStore "sample" (some 0) = .ok resp ∧
        resp.data = toRecs sampleDF sampleDF.rows ∧
        resp.total_rows = sampleDF.rows.length)) :=
  ⟨rfl, get_limit_default_and_zero startupStore "sample" sampleDF rfl⟩

/-- C3: on an existing dataset and existing column, `filter` and
`aggregate` reject an operation tag outside the documented set with
HTTP 400; the `HTTPException(400, "Invalid operation")` raised in the
handler's final `else` is caught by the handler's own `except Exception`
clause and re-raised as HTTP 400 carrying the stringified exception, so
the caller still sees status 400 with a human-readable message and no
other error class. -/
theorem invalid_operation_rejected (store : Store) (df1 df2 : DataFrame)
    (fr : FilterRequest) (ar : AggregateRequest)
    (h1 : lookupStore store fr.dataset_name = some df1)
    (hc1 : df1.cols.contains fr.column = true)
    (hop1 : fr.operation ∉ (["eq", "gt", "lt", "contains"] : List String))
    (h2 : lookupStore store ar.dataset_name = some df2)
    (hc2 : df2.cols.contains ar.column = true)
    (hop2 : ar.operation ∉ (["sum", "mean", "median", "count", "min", "max"] : List String)) :
    filterData store fr = .error ⟨400, httpExcStr 400 "Invalid operation"⟩ ∧
    aggregateData store ar = .error ⟨400, httpExcStr 400 "Invalid operation"⟩ := by
  simp only [List.mem_cons, List.not_mem_nil, or_false, not_or] at hop1 hop2
  obtain ⟨f1, f2, f3, f4⟩ := hop1
  obtain ⟨a1, a2, a3, a4, a5, a6⟩ := hop2
  have hm1 : fr.column ∈ df1.cols := by simpa using hc1
  have hm2 : ar.column ∈ df2.cols := by simpa using hc2
  constructor
  · simp [filterData, h1, hc1, hm1, filterTry, beq_iff_eq, f1, f2, f3, f4]
  · simp [aggregateData, h2, hc2, hm2, reduceAgg, beq_iff_eq, a1, a2, a3, a4, a5, a6]

/-- Witness for C3 with operation tag `"frobnicate"` on the seeded
`sample` dataset's `age` column. -/
theorem invalid_operation_rejected_witness :
    lookupStore startupStore "sample" = some sampleDF ∧
    sampleDF.cols.contains "age" = true ∧
    "frobnicate" ∉ (["eq", "gt", "lt", "contains"] : List String) ∧
    "frobnicate" ∉ (["sum", "mean", "median", "count", "min", "max"] : List String) ∧
    (filterData startupStore ⟨"sample", "age", "frobnicate", .int 0⟩ =
        .error ⟨400, httpExcStr 400 "Invalid operation"⟩ ∧
     aggregateData startupStore ⟨"sample", "age", "frobnicate"⟩ =
        .error ⟨400, httpExcStr 400 "Invalid operation"⟩) :=
  ⟨rfl, rfl, by decide, by decide,
   invalid_operation_rejected startupStore sampleDF sampleDF
     ⟨"sample", "age", "frobnicate", .int 0⟩ ⟨"sample", "age", "frobnicate"⟩
     rfl rfl (by decide) rfl rfl (by decide)⟩

/-- C7: aggregating `sum` over `salary` of the seeded `sample` dataset
returns 75000+85000+65000+90000+72000 = 387000. -/
theorem sample_salary_sum :
    aggregateData startupStore ⟨"sample", "salary", "sum"⟩ =
      .ok ⟨"salary", "sum", some (387000 : Rat)⟩ := by
  rfl

/-- C8: the `filter` handler never writes the store: stepping the service
with any filter request leaves every binding of the store exactly as it
was. -/
theorem filter_preserves_store (store : Store) (req : FilterRequest) :
    (apiStep store (.filter req)).1 = store := rfl

/-- C9: a successful `create` binds the name to the newly built frame,
overwriting an existing dataset of the same name rather than failing. -/
theorem create_binds_and_overwrites (store : Store) (name : String)
    (rows : List Row) (dfOld : DataFrame)
    (_h : lookupStore store name = some dfOld) :
    lookupStore (apiStep store (.create name rows)).1 name = some (mkDataFrame rows) ∧
    ∃ resp, (apiStep store (.create name rows)).2 = .createR (.ok resp) :=
  ⟨lookupStore_storeSet store name (mkDataFrame rows), _, rfl⟩

/-- Witness for C9: re-creating the already-bound `sample` dataset
succeeds and rebinds the name. -/
theorem create_binds_and_overwrites_witness :
    lookupStore startupStore "sample" = some sampleDF ∧
    (lookupStore (apiStep startupStore (.create "sample" [[("a", Value.int 1)]])).1 "sample" =
        some (mkDataFrame [[("a", Value.int 1)]]) ∧
     ∃ resp, (apiStep startupStore (.create "sample" [[("a", Value.int 1)]])).2 =
        .createR (.ok resp)) :=
  ⟨rfl, create_binds_and_overwrites startupStore "sample" [[("a", Value.int 1)]] sampleDF rfl⟩

/-- C10: `create` is atomic on construction failure: the binding
`data_store[name] = df` follows the `pd.DataFrame` call, so when that
call raises, the handler reports HTTP 400 with the exception's message
and the store — including any dataset previously bound to the name — is
left completely unchanged. -/
theorem create_failure_leaves_store_unchanged (store : Store) (name : String)
    (e : String) :
    createDataset store name (.error e) = (store, .error ⟨400, e⟩) := rfl

/-! ## String-column aggregation (C2) -/

/-- A column whose head cell is a string has pandas dtype `object`. -/
theorem inferDtype_of_allStr (cells : List Value) (hne : cells ≠ [])
    (hs : cells.all Value.isStr = true) : inferDtype cells = .object := by
  rcases cells with _ | ⟨c, t⟩
  · cases hne rfl
  · have hc : c.isStr = true := by
      simp only [List.all_cons, Bool.and_eq_true] at hs
      exact hs.1
    cases c <;> simp [Value.isStr] at hc ⊢
    simp [inferDtype, List.all_cons, List.any_cons, Value.isInt, Value.isBool, Value.isNull]

/-- Filtering out nulls is the identity on an all-string column. -/
theorem filter_nonnull_of_allStr (cells : List Value)
    (hs : cells.all Value.isStr = true) :
    cells.filter (fun c => !c.isNull) = cells := by
  apply List.filter_eq_self.mpr
  intro a ha
  rw [List.all_eq_true] at hs
  have := hs a ha
  cases a <;> simp_all [Value.isStr, Value.isNull]

/-- An all-string nonempty column is not all-numeric. -/
theorem not_allNum_of_allStr (cells : List Value) (hne : cells ≠ [])
    (hs : cells.all Value.isStr = true) :
    cells.all Value.isNum = false := by
  rcases cells with _ | ⟨c, t⟩
  · cases hne rfl
  · have hc : c.isStr = true := by
      simp only [List.all_cons, Bool.and_eq_true] at hs
      exact hs.1
    cases c <;> simp [Value.isStr] at hc ⊢
    simp [List.all_cons, Value.isNum]

/-- The two seeded rows of the string-column dataset used against C2. -/
def namesDF : DataFrame := mkDataFrame [[("n", .str "Bob")], [("n", .str "Alice")]]

/-- A store holding only `namesDF` under the name `people`. -/
def namesStore : Store := storeSet [] "people" namesDF

/-- C2 counterexample: on the dataset with string column `["Bob",
"Alice"]`, `aggregate` with tag `min` does not succeed: the lexicographic
minimum `"Alice"` is computed, but the handler's `float(result)` coercion
raises `ValueError`, surfaced as HTTP 400 — refuting that min/max on a
string column succeeds with a float result. -/
theorem string_min_errors_on_nonnumeric :
    aggregateData namesStore ⟨"people", "n", "min"⟩ =
      .error ⟨400, "could not convert string to float: 'Alice'"⟩ := by decide

/-- C2 (amended): on a dataset with a nonempty all-string column, `min`
and `max` compute the lexicographic extremum of the column, and — for
extremal strings in the plain-decimal-literal domain `floatLitPlain`,
where `float()` is modelled exactly by `pyFloatOfString` — the operation
succeeds with a floating-point result exactly when that extremal string
parses as a float; otherwise it fails with HTTP 400 carrying the
`ValueError` message of `float()`. -/
theorem string_minmax_float_coercion (store : Store) (name col : String)
    (df : DataFrame)
    (h : lookupStore store name = some df)
    (hc : df.cols.contains col = true)
    (hne : colCells df col ≠ [])
    (hs : (colCells df col).all Value.isStr = true)
    (_hminplain : floatLitPlain (minStrs (strsOf (colCells df col))) = true)
    (_hmaxplain : floatLitPlain (maxStrs (strsOf (colCells df col))) = true) :
    (aggregateData store ⟨name, col, "min"⟩ =
      match pyFloatOfString (minStrs (strsOf (colCells df col))) with
      | some r => .ok ⟨col, "min", some r⟩
      | none => .error ⟨400, "could not convert string to float: '" ++
          minStrs (strsOf (colCells df col)) ++ "'"⟩) ∧
    (aggregateData store ⟨name, col, "max"⟩ =
      match pyFloatOfString (maxStrs (strsOf (colCells df col))) with
      | some r => .ok ⟨col, "max", some r⟩
      | none => .error ⟨400, "could not convert string to float: '" ++
          maxStrs (strsOf (colCells df col)) ++ "'"⟩) := by
  have hm : col ∈ df.cols := by simpa using hc
  have hdt := inferDtype_of_allStr _ hne hs
  have hfil := filter_nonnull_of_allStr _ hs
  have hnum := not_allNum_of_allStr _ hne hs
  have hemp : (colCells df col).isEmpty = false := by
    rcases hcc : colCells df col with _ | ⟨c, t⟩
    · cases hne hcc
    · rfl
  constructor
  · have hred : reduceAgg "min" (inferDtype (colCells df col)) (colCells df col) =
        some (.ok (.s (minStrs (strsOf (colCells df col))))) := by
      rw [hdt]
      simp [reduceAgg, hfil, hemp, hnum, hs]
    rcases hp : pyFloatOfString (minStrs (strsOf (colCells df col))) with _ | r
    · simp [aggregateData, h, hm, hred, coerceFloat, hp]
    · simp [aggregateData, h, hm, hred, coerceFloat, hp]
  · have hred : reduceAgg "max" (inferDtype (colCells df col)) (colCells df col) =
        some (.ok (.s (maxStrs (strsOf (colCells df col))))) := by
      rw [hdt]
      simp [reduceAgg, hfil, hemp, hnum, hs]
    rcases hp : pyFloatOfString (maxStrs (strsOf (colCells df col))) with _ | r
    · simp [aggregateData, h, hm, hred, coerceFloat, hp]
    · simp [aggregateData, h, hm, hred, coerceFloat, hp]

/-- Witness for the amended C2 at the concrete string-column store. -/
theorem string_minmax_float_coercion_witness :
    lookupStore namesStore "people" = some namesDF ∧
    namesDF.cols.contains "n" = true ∧
    colCells namesDF "n" ≠ [] ∧
    (colCells namesDF "n").all Value.isStr = true ∧
    floatLitPlain (minStrs (strsOf (colCells namesDF "n"))) = true ∧
    floatLitPlain (maxStrs (strsOf (colCells namesDF "n"))) = true ∧
    ((aggregateData namesStore ⟨"people", "n", "min"⟩ =
      match pyFloatOfString (minStrs (strsOf (colCells namesDF "n"))) with
      | some r => .ok ⟨"n", "min", some r⟩
      | none => .error ⟨400, "could not convert string to float: '" ++
          minStrs (strsOf (colCells namesDF "n")) ++ "'"⟩) ∧
     (aggregateData namesStore ⟨"people", "n", "max"⟩ =
      match pyFloatOfString (maxStrs (strsOf (colCells namesDF "n"))) with
      | some r => .ok ⟨"n", "max", some r⟩
      | none => .error ⟨400, "could not convert string to float: '" ++
          maxStrs (strsOf (colCells namesDF "n")) ++ "'"⟩)) :=
  ⟨rfl, rfl, by decide, by decide, by decide, by decide,
   string_minmax_float_coercion namesStore "people" "n" namesDF rfl rfl
     (by decide) (by decide) (by decide) (by decide)⟩

/-! ## Null cells under `contains` (C5) -/

/-- A two-row dataset whose column `c` holds a string and a null. -/
def nullDF : DataFrame := mkDataFrame [[("c", .str "x")], [("c", .null)]]

/-- A store holding only `nullDF` under the name `mixed`. -/
def nullStore : Store := storeSet [] "mixed" nullDF

/-- C5 counterexample: filtering `contains` with value `"on"` on a column
holding `["x", null]` keeps exactly the null row — `astype(str)` renders
the null cell as the string `"None"`, which contains `"on"` — refuting
that null cells never match. -/
theorem contains_null_cell_matches :
    filterData nullStore ⟨"mixed", "c", "contains", .str "on"⟩ =
      .ok ⟨[[("c", Value.null)]], 1⟩ := by rfl

/-- C5 (amended): on an existing dataset and column, `contains` succeeds
and keeps exactly the rows whose cell, rendered by `astype(str)` at the
column's dtype, has `str(value)` as a substring (for comparison values
whose string form is free of regex metacharacters, where
`Series.str.contains` is a substring test); null cells are rendered as
the strings `"None"` (object columns) and `"nan"` (numeric columns) and
therefore can match, and never cause an error. -/
theorem contains_matches_stringified_cells (store : Store) (name col : String)
    (df : DataFrame) (v : Value)
    (h : lookupStore store name = some df)
    (hc : df.cols.contains col = true)
    (_hlit : regexLiteral (pyStr v) = true) :
    filterData store ⟨name, col, "contains", v⟩ =
      .ok ⟨toRecs df (df.rows.filter (fun r =>
            strHasSub (pyStr v) (cellStr (inferDtype (colCells df col))
              (r.getD (df.cols.indexOf col) Value.null)))),
          (df.rows.filter (fun r =>
            strHasSub (pyStr v) (cellStr (inferDtype (colCells df col))
              (r.getD (df.cols.indexOf col) Value.null)))).length⟩ ∧
    cellStr Dtype.object Value.null = "None" ∧
    cellStr Dtype.float64 Value.null = "nan" := by
  refine ⟨?_, rfl, rfl⟩
  have hm : col ∈ df.cols := by simpa using hc
  simp [filterData, h, hm, filterTry]

/-- Witness for the amended C5 at the concrete null-holding store. -/
theorem contains_matches_stringified_cells_witness :
    lookupStore nullStore "mixed" = some nullDF ∧
    nullDF.cols.contains "c" = true ∧
    regexLiteral (pyStr (Value.str "on")) = true ∧
    (filterData nullStore ⟨"mixed", "c", "contains", Value.str "on"⟩ =
      .ok ⟨toRecs nullDF (nullDF.rows.filter (fun r =>
            strHasSub (pyStr (Value.str "on")) (cellStr (inferDtype (colCells nullDF "c"))
              (r.getD (nullDF.cols.indexOf "c") Value.null)))),
          (nullDF.rows.filter (fun r =>
            strHasSub (pyStr (Value.str "on")) (cellStr (inferDtype (colCells nullDF "c"))
              (r.getD (nullDF.cols.indexOf "c") Value.null)))).length⟩ ∧
     cellStr Dtype.object Value.null = "None" ∧
     cellStr Dtype.float64 Value.null = "nan") :=
  ⟨rfl, rfl, by decide,
   contains_matches_stringified_cells nullStore "mixed" "c" nullDF (Value.str "on")
     rfl rfl (by decide)⟩

/-! ## Null reductions (C6) -/

/-- C6: whenever the column reduction of a valid aggregate tag yields a
missing result (NaN/None) — as the `min`/`max` of an all-null column does
— the handler succeeds and reports an explicit null result, because
`pd.notna(result)` is false and the response carries `None` instead of
the float coercion. -/
theorem null_reduction_reports_null (store : Store) (name col op : String)
    (df : DataFrame)
    (h : lookupStore store name = some df)
    (hc : df.cols.contains col = true)
    (hred : reduceAgg op (inferDtype (colCells df col)) (colCells df col) =
        some (.ok .nullv)) :
    aggregateData store ⟨name, col, op⟩ = .ok ⟨col, op, none⟩ := by
  have hm : col ∈ df.cols := by simpa using hc
  simp [aggregateData, h, hm, hred, coerceFloat]

/-- A two-row dataset whose only column is all null. -/
def allNullDF : DataFrame := mkDataFrame [[("a", .null)], [("a", .null)]]

/-- A store holding only `allNullDF` under the name `blank`. -/
def allNullStore : Store := storeSet [] "blank" allNullDF

/-- Witness for C6: `min` over an all-null column reduces to NaN and the
response reports an explicit null result. -/
theorem null_reduction_reports_null_witness :
    lookupStore allNullStore "blank" = some allNullDF ∧
    allNullDF.cols.contains "a" = true ∧
    reduceAgg "min" (inferDtype (colCells allNullDF "a")) (colCells allNullDF "a") =
        some (.ok .nullv) ∧
    aggregateData allNullStore ⟨"blank", "a", "min"⟩ = .ok ⟨"a", "min", none⟩ :=
  ⟨rfl, rfl, rfl,
   null_reduction_reports_null allNullStore "blank" "a" "min" allNullDF rfl rfl rfl⟩

/-! ## Round-trip (C4) -/

/-- C4: for every all-scalar (null-free) rectangular upload — all rows
sharing one duplicate-free key list — `create(name, rows)` followed by
`get(name, limit = len(rows))` returns exactly the uploaded row records,
in upload order. -/
theorem create_get_roundtrip (store : Store) (name : String) (rows : List Row)
    (ks : List String)
    (hks : ∀ r ∈ rows, r.map Prod.fst = ks) (hnd : ks.Nodup)
    (hscalar : ∀ r ∈ rows, ∀ p ∈ r, p.2 ≠ Value.null) :
    ∃ resp, getDataset (apiStep store (.create name rows)).1 name
        (some (rows.length : Int)) = .ok resp ∧ resp.data = rows := by
  have hlook : lookupStore (apiStep store (.create name rows)).1 name =
      some (mkDataFrame rows) :=
    lookupStore_storeSet store name (mkDataFrame rows)
  have hdata : toRecs (mkDataFrame rows) (mkDataFrame rows).rows = rows :=
    mkDataFrame_toRecs rows ks hks hnd
  rcases Nat.eq_zero_or_pos rows.length with h0 | hpos
  · have hrows : rows = [] := List.length_eq_zero.mp h0
    subst hrows
    refine ⟨⟨[], [], 0, []⟩, ?_, rfl⟩
    simp [getDataset, hlook, toRecs, mkDataFrame, unionKeys, colCells]
  · have hlim : ((rows.length : Int)) ≠ 0 := by
      simpa using Nat.pos_iff_ne_zero.mp hpos
    have hlen : (mkDataFrame rows).rows.length = rows.length := by
      simp [mkDataFrame]
    have hhead : pdHead (rows.length : Int) (mkDataFrame rows).rows =
        (mkDataFrame rows).rows := by
      simp [pdHead, hlen]
    have heq : getDataset (apiStep store (.create name rows)).1 name
        (some (rows.length : Int)) =
        .ok ⟨toRecs (mkDataFrame rows) (mkDataFrame rows).rows,
             (mkDataFrame rows).cols, (mkDataFrame rows).rows.length,
             (mkDataFrame rows).cols.map (fun c =>
               (c, dtypeName (inferDtype (colCells (mkDataFrame rows) c))))⟩ := by
      simp [getDataset, hlook, hlim, hhead]
    exact ⟨_, heq, hdata⟩

/-- The concrete two-row rectangular upload used to witness C4. -/
def rtRows : List Row :=
  [[("a", .int 1), ("b", .str "x")], [("a", .int 2), ("b", .str "y")]]

/-- Witness for C4 at a concrete two-column upload. -/
theorem create_get_roundtrip_witness :
    (∀ r ∈ rtRows, r.map Prod.fst = ["a", "b"]) ∧
    (["a", "b"] : List String).Nodup ∧
    (∀ r ∈ rtRows, ∀ p ∈ r, p.2 ≠ Value.null) ∧
    ∃ resp, getDataset (apiStep startupStore (.create "t" rtRows)).1 "t"
        (some (rtRows.length : Int)) = .ok resp ∧ resp.data = rtRows :=
  ⟨by decide, by decide, by decide,
   create_get_roundtrip startupStore "t" rtRows ["a", "b"]
     (by decide) (by decide) (by decide)⟩

end Tabular
